import Mathlib

/-!
Shallow embedding of the SVD driver of `lax/src/svd.rs` (crate `lax` of
`ndarray-linalg`).  The external LAPACK kernel (`*gesvd`) is modelled as an
oracle function from the argument record of one invocation to the buffers it
writes back plus its status code; the driver is a pure function that also
returns the trace of kernel invocations it performed, so that the two-call
workspace protocol is observable.  Machine scalars (f32/f64/c32/c64) are
modelled by a type parameter `A` with a `Zero` instance and an explicit
`to_usize` partial conversion, exactly the two operations the driver uses.
-/

namespace Lax

/-- Modelled from the spec: `MatrixLayout` (crate module `layout`, not part of
the SVD source file) is a tagged value with two variants, row-major `C` and
column-major `F`, carrying the nonnegative row and column counts. -/
inductive MatrixLayout where
  | C (rows : Nat) (cols : Nat)
  | F (rows : Nat) (cols : Nat)
deriving DecidableEq

/-- Modelled from the spec: `leadingDimension()` (`lda()` in the code) returns
`rows` for column-major and `cols` for row-major storage. -/
def MatrixLayout.lda : MatrixLayout → Nat
  | MatrixLayout.C _ cols => cols
  | MatrixLayout.F rows _ => rows

/-- Modelled from the spec: `otherDimension()` (`len()` in the code) returns
the complementary count: `rows` for row-major and `cols` for column-major. -/
def MatrixLayout.len : MatrixLayout → Nat
  | MatrixLayout.C rows _ => rows
  | MatrixLayout.F _ cols => cols

/-- The kernel request vocabulary `FlagSVD` of `svd.rs`; only `All` (byte
value of A) and `No` (byte value of N) are used by this driver. -/
inductive FlagSVD where
  | All
  | No
deriving DecidableEq

/-- `FlagSVD::from_bool`: `All` iff the boolean request is true. -/
def FlagSVD.from_bool (calc_uv : Bool) : FlagSVD :=
  if calc_uv then FlagSVD.All else FlagSVD.No

/-- Modelled from the spec: the two error kinds of the crate error module
(not part of the SVD source file) into which kernel status codes are
translated. -/
inductive Error where
  | InvalidArgument (position : Int)
  | ConvergenceFailure (count : Int)
deriving DecidableEq

/-- Modelled from the spec: `info.as_lapack_result()` — a negative status maps
to `InvalidArgument(-status)`, a positive one to `ConvergenceFailure(status)`,
and zero is success. -/
def as_lapack_result (info : Int) : Except Error Unit :=
  if info < 0 then Except.error (Error.InvalidArgument (-info))
  else if 0 < info then Except.error (Error.ConvergenceFailure info)
  else Except.ok ()

/-- Result of SVD (`SVDOutput` in `svd.rs`): singular values `s`, and the
optional factor buffers `u` and `vt`. -/
structure SVDOutput (A R : Type) where
  s : List R
  u : Option (List A)
  vt : Option (List A)
deriving DecidableEq

/-- Outcome of one driver call: `ok` and `err` are the two sides of the Rust
`Result`; `panicked` models a panic of `.unwrap()` on a failed conversion. -/
inductive SvdResult (A R : Type) where
  | ok (out : SVDOutput A R)
  | err (e : Error)
  | panicked
deriving DecidableEq

/-- Argument record of one invocation of a real `*gesvd` kernel, in the order
of the Rust call: job flags, dimensions, matrix buffer, leading dimensions,
output buffers, scratch buffer and its declared length (`-1` on a workspace
query). -/
structure GesvdCall (A R : Type) where
  ju : FlagSVD
  jvt : FlagSVD
  m : Nat
  n : Nat
  a : List A
  lda : Nat
  s : List R
  u : List A
  ldu : Nat
  vt : List A
  ldvt : Nat
  work : List A
  lwork : Int
deriving DecidableEq

/-- Buffers written back by one invocation of a real `*gesvd` kernel (the
post-state of every `&mut` argument) plus the status code. -/
structure GesvdOut (A R : Type) where
  a : List A
  s : List R
  u : List A
  vt : List A
  work : List A
  info : Int
deriving DecidableEq

/-- Argument record of one invocation of a complex `*gesvd` kernel: as the
real one plus the real-valued scratch array `rwork`. -/
structure GesvdCallC (A R : Type) where
  ju : FlagSVD
  jvt : FlagSVD
  m : Nat
  n : Nat
  a : List A
  lda : Nat
  s : List R
  u : List A
  ldu : Nat
  vt : List A
  ldvt : Nat
  work : List A
  lwork : Int
  rwork : List R
deriving DecidableEq

/-- Buffers written back by one invocation of a complex `*gesvd` kernel plus
the status code. -/
structure GesvdOutC (A R : Type) where
  a : List A
  s : List R
  u : List A
  vt : List A
  work : List A
  rwork : List R
  info : Int
deriving DecidableEq

/-- Two-complement wrap of a nonnegative machine integer into i32, the
semantics of `lwork as i32` in the Rust source. -/
def i32cast (x : Nat) : Int :=
  if x % 2 ^ 32 < 2 ^ 31 then ((x % 2 ^ 32 : Nat) : Int)
  else ((x % 2 ^ 32 : Nat) : Int) - 2 ^ 32

/-- Flag resolution and output allocation shared by the four scalar kinds,
lines 56 to 78 of `svd.rs`: resolved job flags, dimensions `m = l.lda()`,
`n = l.len()`, `k = min m n`, the optionally allocated square factor buffers
and the zero-initialized singular value buffer. -/
structure SvdSetup (A R : Type) where
  ju : FlagSVD
  jvt : FlagSVD
  m : Nat
  n : Nat
  k : Nat
  u : Option (List A)
  vt : Option (List A)
  s : List R
deriving DecidableEq

/-- Embeds lines 56 to 78 of `svd.rs` (identical in the real and complex
macros): the layout-dependent flag swap, the allocation of `u` (size m*m) and
`vt` (size n*n) when requested, and the zero-initialized `s` of length k. -/
def svd_setup {A R : Type} [Zero A] [Zero R] (l : MatrixLayout)
    (calc_u : Bool) (calc_vt : Bool) : SvdSetup A R :=
  let ju := match l with
    | MatrixLayout.F _ _ => FlagSVD.from_bool calc_u
    | MatrixLayout.C _ _ => FlagSVD.from_bool calc_vt
  let jvt := match l with
    | MatrixLayout.F _ _ => FlagSVD.from_bool calc_vt
    | MatrixLayout.C _ _ => FlagSVD.from_bool calc_u
  let m := l.lda
  let u : Option (List A) := match ju with
    | FlagSVD.All => some (List.replicate (m * m) 0)
    | FlagSVD.No => none
  let n := l.len
  let vt : Option (List A) := match jvt with
    | FlagSVD.All => some (List.replicate (n * n) 0)
    | FlagSVD.No => none
  let k := min m n
  let s : List R := List.replicate k 0
  ⟨ju, jvt, m, n, k, u, vt, s⟩

/-- The workspace-query invocation of the real path (lines 81 to 98): the
allocated buffers, a one-element scratch buffer holding zero, and the size
sentinel `-1`; an absent factor buffer is passed as the empty slice
(`unwrap_or` of an empty mutable slice in the source). -/
def queryCall {A R : Type} (st : SvdSetup A R) (a : List A) [Zero A] :
    GesvdCall A R :=
  { ju := st.ju, jvt := st.jvt, m := st.m, n := st.n, a := a, lda := st.m,
    s := st.s, u := st.u.getD [], ldu := st.m, vt := st.vt.getD [],
    ldvt := st.n, work := [0], lwork := -1 }

/-- The execution invocation of the real path (lines 102 to 119): buffers as
left by the query invocation `o1`, a fresh zeroed scratch buffer of the
reported length, and that length cast to i32 as the declared length. -/
def execCall {A R : Type} [Zero A] (st : SvdSetup A R) (o1 : GesvdOut A R)
    (lwork : Nat) : GesvdCall A R :=
  { ju := st.ju, jvt := st.jvt, m := st.m, n := st.n, a := o1.a, lda := st.m,
    s := o1.s, u := (st.u.map fun _ => o1.u).getD [], ldu := st.m,
    vt := (st.vt.map fun _ => o1.vt).getD [], ldvt := st.n,
    work := List.replicate lwork 0, lwork := i32cast lwork }

/-- Embeds the layout-dependent output-slot swap of lines 121 to 124 (and
211 to 214) of `svd.rs`: under column-major layout the slots are returned
unswapped, under row-major layout the U slot is returned as vt and the Vt
slot as u. -/
def svdPost {A R : Type} (l : MatrixLayout) (s : List R)
    (u2 vt2 : Option (List A)) : SVDOutput A R :=
  match l with
  | MatrixLayout.F _ _ => { s := s, u := u2, vt := vt2 }
  | MatrixLayout.C _ _ => { s := s, u := vt2, vt := u2 }

/-- The real-scalar SVD driver (macro `impl_svd_real` of `svd.rs`,
instantiated at f32 and f64): returns the trace of kernel invocations
together with the outcome.  `gesvd` is the external kernel oracle and
`to_usize` the scalar-to-usize conversion used on the reported workspace
size. -/
def svd_real {A R : Type} [Zero A] [Zero R]
    (gesvd : GesvdCall A R → GesvdOut A R) (to_usize : A → Option Nat)
    (l : MatrixLayout) (calc_u : Bool) (calc_vt : Bool) (a : List A) :
    List (GesvdCall A R) × SvdResult A R :=
  let st := svd_setup l calc_u calc_vt
  let c1 := queryCall st a
  let o1 := gesvd c1
  match as_lapack_result o1.info with
  | Except.error e => ([c1], SvdResult.err e)
  | Except.ok _ =>
    match to_usize (o1.work.headD 0) with
    | none => ([c1], SvdResult.panicked)
    | some lwork =>
      let c2 := execCall st o1 lwork
      let o2 := gesvd c2
      match as_lapack_result o2.info with
      | Except.error e => ([c1, c2], SvdResult.err e)
      | Except.ok _ =>
        ([c1, c2],
          SvdResult.ok (svdPost l o2.s (st.u.map fun _ => o2.u)
            (st.vt.map fun _ => o2.vt)))

/-- The workspace-query invocation of the complex path (lines 168 to 187):
as the real one, with the real scratch array `rwork` passed through. -/
def queryCallC {A R : Type} (st : SvdSetup A R) (rwork : List R)
    (a : List A) [Zero A] : GesvdCallC A R :=
  { ju := st.ju, jvt := st.jvt, m := st.m, n := st.n, a := a, lda := st.m,
    s := st.s, u := st.u.getD [], ldu := st.m, vt := st.vt.getD [],
    ldvt := st.n, work := [0], lwork := -1, rwork := rwork }

/-- The execution invocation of the complex path (lines 193 to 209): buffers
as left by the query invocation `o1` (including `rwork`, which is the same
array, not reallocated), a fresh zeroed complex scratch buffer of the
reported length, and that length cast to i32. -/
def execCallC {A R : Type} [Zero A] (st : SvdSetup A R) (o1 : GesvdOutC A R)
    (lwork : Nat) : GesvdCallC A R :=
  { ju := st.ju, jvt := st.jvt, m := st.m, n := st.n, a := o1.a, lda := st.m,
    s := o1.s, u := (st.u.map fun _ => o1.u).getD [], ldu := st.m,
    vt := (st.vt.map fun _ => o1.vt).getD [], ldvt := st.n,
    work := List.replicate lwork 0, lwork := i32cast lwork,
    rwork := o1.rwork }

/-- The complex-scalar SVD driver (macro `impl_svd_complex` of `svd.rs`,
instantiated at c32 and c64): as the real driver plus the real scratch array
`rwork` of length `5 * k`, allocated once before the query invocation. -/
def svd_complex {A R : Type} [Zero A] [Zero R]
    (gesvd : GesvdCallC A R → GesvdOutC A R) (to_usize : A → Option Nat)
    (l : MatrixLayout) (calc_u : Bool) (calc_vt : Bool) (a : List A) :
    List (GesvdCallC A R) × SvdResult A R :=
  let st := svd_setup l calc_u calc_vt
  let rwork : List R := List.replicate (5 * st.k) 0
  let c1 := queryCallC st rwork a
  let o1 := gesvd c1
  match as_lapack_result o1.info with
  | Except.error e => ([c1], SvdResult.err e)
  | Except.ok _ =>
    match to_usize (o1.work.headD 0) with
    | none => ([c1], SvdResult.panicked)
    | some lwork =>
      let c2 := execCallC st o1 lwork
      let o2 := gesvd c2
      match as_lapack_result o2.info with
      | Except.error e => ([c1, c2], SvdResult.err e)
      | Except.ok _ =>
        ([c1, c2],
          SvdResult.ok (svdPost l o2.s (st.u.map fun _ => o2.u)
            (st.vt.map fun _ => o2.vt)))

/-- Status translation succeeds exactly on status code zero. -/
theorem as_lapack_result_ok_iff (i : Int) :
    as_lapack_result i = Except.ok () ↔ i = 0 := by
  unfold as_lapack_result
  split
  · next h => simp only [iff_false, reduceCtorEq, false_iff]; omega
  · split
    · next h => simp only [reduceCtorEq, false_iff]; omega
    · next h h2 => simp only [true_iff]; omega

/-- Status translation fails exactly on a nonzero status code. -/
theorem as_lapack_result_error_iff (i : Int) :
    (∃ e, as_lapack_result i = Except.error e) ↔ i ≠ 0 := by
  rcases h : as_lapack_result i with e | u
  · constructor
    · intro _ hi
      rw [hi] at h
      simp [as_lapack_result] at h
    · exact fun _ => ⟨e, rfl⟩
  · cases u
    rw [as_lapack_result_ok_iff] at h
    simp [h]

/-- On a query failure the real driver returns the error after the single
query invocation. -/
theorem svd_real_query_fail {A R : Type} [Zero A] [Zero R]
    (gesvd : GesvdCall A R → GesvdOut A R) (to_usize : A → Option Nat)
    (l : MatrixLayout) (cu cv : Bool) (a : List A) (e : Error)
    (h : as_lapack_result ((gesvd (queryCall (svd_setup l cu cv) a)).info) =
      Except.error e) :
    svd_real gesvd to_usize l cu cv a =
      ([queryCall (svd_setup l cu cv) a], SvdResult.err e) := by
  simp only [svd_real, h]

/-- On a successful query whose reported size does not convert, the real
driver panics after the single query invocation. -/
theorem svd_real_panic {A R : Type} [Zero A] [Zero R]
    (gesvd : GesvdCall A R → GesvdOut A R) (to_usize : A → Option Nat)
    (l : MatrixLayout) (cu cv : Bool) (a : List A)
    (h : as_lapack_result ((gesvd (queryCall (svd_setup l cu cv) a)).info) =
      Except.ok ())
    (h2 : to_usize ((gesvd (queryCall (svd_setup l cu cv) a)).work.headD 0) =
      none) :
    svd_real gesvd to_usize l cu cv a =
      ([queryCall (svd_setup l cu cv) a], SvdResult.panicked) := by
  simp only [svd_real, h, h2]

/-- On a successful query with a convertible size but a failing execution
invocation, the real driver returns the error after the two invocations. -/
theorem svd_real_exec_fail {A R : Type} [Zero A] [Zero R]
    (gesvd : GesvdCall A R → GesvdOut A R) (to_usize : A → Option Nat)
    (l : MatrixLayout) (cu cv : Bool) (a : List A) (lw : Nat) (e : Error)
    (h : as_lapack_result ((gesvd (queryCall (svd_setup l cu cv) a)).info) =
      Except.ok ())
    (h2 : to_usize ((gesvd (queryCall (svd_setup l cu cv) a)).work.headD 0) =
      some lw)
    (h3 : as_lapack_result ((gesvd (execCall (svd_setup l cu cv)
      (gesvd (queryCall (svd_setup l cu cv) a)) lw)).info) =
      Except.error e) :
    svd_real gesvd to_usize l cu cv a =
      ([queryCall (svd_setup l cu cv) a,
        execCall (svd_setup l cu cv) (gesvd (queryCall (svd_setup l cu cv) a))
          lw], SvdResult.err e) := by
  simp only [svd_real, h, h2, h3]

/-- On a successful query with a convertible size and a successful execution
invocation, the real driver returns the swapped outputs after the two
invocations. -/
theorem svd_real_success {A R : Type} [Zero A] [Zero R]
    (gesvd : GesvdCall A R → GesvdOut A R) (to_usize : A → Option Nat)
    (l : MatrixLayout) (cu cv : Bool) (a : List A) (lw : Nat)
    (h : as_lapack_result ((gesvd (queryCall (svd_setup l cu cv) a)).info) =
      Except.ok ())
    (h2 : to_usize ((gesvd (queryCall (svd_setup l cu cv) a)).work.headD 0) =
      some lw)
    (h3 : as_lapack_result ((gesvd (execCall (svd_setup l cu cv)
      (gesvd (queryCall (svd_setup l cu cv) a)) lw)).info) =
      Except.ok ()) :
    svd_real gesvd to_usize l cu cv a =
      ([queryCall (svd_setup l cu cv) a,
        execCall (svd_setup l cu cv) (gesvd (queryCall (svd_setup l cu cv) a))
          lw],
        SvdResult.ok (svdPost l
          ((gesvd (execCall (svd_setup l cu cv)
            (gesvd (queryCall (svd_setup l cu cv) a)) lw)).s)
          ((svd_setup l cu cv : SvdSetup A R).u.map fun _ =>
            (gesvd (execCall (svd_setup l cu cv)
              (gesvd (queryCall (svd_setup l cu cv) a)) lw)).u)
          ((svd_setup l cu cv : SvdSetup A R).vt.map fun _ =>
            (gesvd (execCall (svd_setup l cu cv)
              (gesvd (queryCall (svd_setup l cu cv) a)) lw)).vt))) := by
  simp only [svd_real, h, h2, h3]

/-- On a query failure the complex driver returns the error after the single
query invocation. -/
theorem svd_complex_query_fail {A R : Type} [Zero A] [Zero R]
    (gesvd : GesvdCallC A R → GesvdOutC A R) (to_usize : A → Option Nat)
    (l : MatrixLayout) (cu cv : Bool) (a : List A) (e : Error)
    (h : as_lapack_result ((gesvd (queryCallC (svd_setup l cu cv)
      (List.replicate (5 * (svd_setup l cu cv : SvdSetup A R).k) 0) a)).info) =
      Except.error e) :
    svd_complex gesvd to_usize l cu cv a =
      ([queryCallC (svd_setup l cu cv)
        (List.replicate (5 * (svd_setup l cu cv : SvdSetup A R).k) 0) a],
        SvdResult.err e) := by
  simp only [svd_complex, h]

/-- On a successful query whose reported size does not convert, the complex
driver panics after the single query invocation. -/
theorem svd_complex_panic {A R : Type} [Zero A] [Zero R]
    (gesvd : GesvdCallC A R → GesvdOutC A R) (to_usize : A → Option Nat)
    (l : MatrixLayout) (cu cv : Bool) (a : List A)
    (h : as_lapack_result ((gesvd (queryCallC (svd_setup l cu cv)
      (List.replicate (5 * (svd_setup l cu cv : SvdSetup A R).k) 0) a)).info) =
      Except.ok ())
    (h2 : to_usize ((gesvd (queryCallC (svd_setup l cu cv)
      (List.replicate (5 * (svd_setup l cu cv : SvdSetup A R).k) 0)
      a)).work.headD 0) = none) :
    svd_complex gesvd to_usize l cu cv a =
      ([queryCallC (svd_setup l cu cv)
        (List.replicate (5 * (svd_setup l cu cv : SvdSetup A R).k) 0) a],
        SvdResult.panicked) := by
  simp only [svd_complex, h, h2]

/-- On a successful query with a convertible size but a failing execution
invocation, the complex driver returns the error after the two
invocations. -/
theorem svd_complex_exec_fail {A R : Type} [Zero A] [Zero R]
    (gesvd : GesvdCallC A R → GesvdOutC A R) (to_usize : A → Option Nat)
    (l : MatrixLayout) (cu cv : Bool) (a : List A) (lw : Nat) (e : Error)
    (h : as_lapack_result ((gesvd (queryCallC (svd_setup l cu cv)
      (List.replicate (5 * (svd_setup l cu cv : SvdSetup A R).k) 0) a)).info) =
      Except.ok ())
    (h2 : to_usize ((gesvd (queryCallC (svd_setup l cu cv)
      (List.replicate (5 * (svd_setup l cu cv : SvdSetup A R).k) 0)
      a)).work.headD 0) = some lw)
    (h3 : as_lapack_result ((gesvd (execCallC (svd_setup l cu cv)
      (gesvd (queryCallC (svd_setup l cu cv)
        (List.replicate (5 * (svd_setup l cu cv : SvdSetup A R).k) 0) a))
      lw)).info) = Except.error e) :
    svd_complex gesvd to_usize l cu cv a =
      ([queryCallC (svd_setup l cu cv)
        (List.replicate (5 * (svd_setup l cu cv : SvdSetup A R).k) 0) a,
        execCallC (svd_setup l cu cv)
          (gesvd (queryCallC (svd_setup l cu cv)
            (List.replicate (5 * (svd_setup l cu cv : SvdSetup A R).k) 0) a))
          lw], SvdResult.err e) := by
  simp only [svd_complex, h, h2, h3]

/-- On a successful query with a convertible size and a successful execution
invocation, the complex driver returns the swapped outputs after the two
invocations. -/
theorem svd_complex_success {A R : Type} [Zero A] [Zero R]
    (gesvd : GesvdCallC A R → GesvdOutC A R) (to_usize : A → Option Nat)
    (l : MatrixLayout) (cu cv : Bool) (a : List A) (lw : Nat)
    (h : as_lapack_result ((gesvd (queryCallC (svd_setup l cu cv)
      (List.replicate (5 * (svd_setup l cu cv : SvdSetup A R).k) 0) a)).info) =
      Except.ok ())
    (h2 : to_usize ((gesvd (queryCallC (svd_setup l cu cv)
      (List.replicate (5 * (svd_setup l cu cv : SvdSetup A R).k) 0)
      a)).work.headD 0) = some lw)
    (h3 : as_lapack_result ((gesvd (execCallC (svd_setup l cu cv)
      (gesvd (queryCallC (svd_setup l cu cv)
        (List.replicate (5 * (svd_setup l cu cv : SvdSetup A R).k) 0) a))
      lw)).info) = Except.ok ()) :
    svd_complex gesvd to_usize l cu cv a =
      ([queryCallC (svd_setup l cu cv)
        (List.replicate (5 * (svd_setup l cu cv : SvdSetup A R).k) 0) a,
        execCallC (svd_setup l cu cv)
          (gesvd (queryCallC (svd_setup l cu cv)
            (List.replicate (5 * (svd_setup l cu cv : SvdSetup A R).k) 0) a))
          lw],
        SvdResult.ok (svdPost l
          ((gesvd (execCallC (svd_setup l cu cv)
            (gesvd (queryCallC (svd_setup l cu cv)
              (List.replicate (5 * (svd_setup l cu cv : SvdSetup A R).k) 0)
              a)) lw)).s)
          ((svd_setup l cu cv : SvdSetup A R).u.map fun _ =>
            (gesvd (execCallC (svd_setup l cu cv)
              (gesvd (queryCallC (svd_setup l cu cv)
                (List.replicate (5 * (svd_setup l cu cv : SvdSetup A R).k) 0)
                a)) lw)).u)
          ((svd_setup l cu cv : SvdSetup A R).vt.map fun _ =>
            (gesvd (execCallC (svd_setup l cu cv)
              (gesvd (queryCallC (svd_setup l cu cv)
                (List.replicate (5 * (svd_setup l cu cv : SvdSetup A R).k) 0)
                a)) lw)).vt))) := by
  simp only [svd_complex, h, h2, h3]

/-- U-slot flag for a column-major layout: the request for U. -/
theorem svd_setup_ju_F {A R : Type} [Zero A] [Zero R] (r c : Nat)
    (cu cv : Bool) :
    (svd_setup (MatrixLayout.F r c) cu cv : SvdSetup A R).ju =
      FlagSVD.from_bool cu := rfl

/-- U-slot flag for a row-major layout: the request for Vt. -/
theorem svd_setup_ju_C {A R : Type} [Zero A] [Zero R] (r c : Nat)
    (cu cv : Bool) :
    (svd_setup (MatrixLayout.C r c) cu cv : SvdSetup A R).ju =
      FlagSVD.from_bool cv := rfl

/-- Vt-slot flag for a column-major layout: the request for Vt. -/
theorem svd_setup_jvt_F {A R : Type} [Zero A] [Zero R] (r c : Nat)
    (cu cv : Bool) :
    (svd_setup (MatrixLayout.F r c) cu cv : SvdSetup A R).jvt =
      FlagSVD.from_bool cv := rfl

/-- Vt-slot flag for a row-major layout: the request for U. -/
theorem svd_setup_jvt_C {A R : Type} [Zero A] [Zero R] (r c : Nat)
    (cu cv : Bool) :
    (svd_setup (MatrixLayout.C r c) cu cv : SvdSetup A R).jvt =
      FlagSVD.from_bool cu := rfl

/-- The leading dimension recorded by the setup. -/
theorem svd_setup_m {A R : Type} [Zero A] [Zero R] (l : MatrixLayout)
    (cu cv : Bool) : (svd_setup l cu cv : SvdSetup A R).m = l.lda := rfl

/-- The other dimension recorded by the setup. -/
theorem svd_setup_n {A R : Type} [Zero A] [Zero R] (l : MatrixLayout)
    (cu cv : Bool) : (svd_setup l cu cv : SvdSetup A R).n = l.len := rfl

/-- The singular-value count recorded by the setup. -/
theorem svd_setup_k {A R : Type} [Zero A] [Zero R] (l : MatrixLayout)
    (cu cv : Bool) :
    (svd_setup l cu cv : SvdSetup A R).k = min l.lda l.len := rfl

/-- The U-slot allocation of the setup, by U-slot flag. -/
theorem svd_setup_u {A R : Type} [Zero A] [Zero R] (l : MatrixLayout)
    (cu cv : Bool) :
    (svd_setup l cu cv : SvdSetup A R).u =
      (match (svd_setup l cu cv : SvdSetup A R).ju with
        | FlagSVD.All => some (List.replicate (l.lda * l.lda) 0)
        | FlagSVD.No => none) := rfl

/-- The Vt-slot allocation of the setup, by Vt-slot flag. -/
theorem svd_setup_vt {A R : Type} [Zero A] [Zero R] (l : MatrixLayout)
    (cu cv : Bool) :
    (svd_setup l cu cv : SvdSetup A R).vt =
      (match (svd_setup l cu cv : SvdSetup A R).jvt with
        | FlagSVD.All => some (List.replicate (l.len * l.len) 0)
        | FlagSVD.No => none) := rfl

/-- The singular-value buffer of the setup: zeroed, length k. -/
theorem svd_setup_s {A R : Type} [Zero A] [Zero R] (l : MatrixLayout)
    (cu cv : Bool) :
    (svd_setup l cu cv : SvdSetup A R).s =
      List.replicate (min l.lda l.len) 0 := rfl

/-- Specification-side statement of the layout-swapped flag resolution of
section 4.1 of the design: under column-major storage the U-slot flag is Full
iff U was requested and the Vt-slot flag is Full iff Vt was requested; under
row-major storage the two requests are swapped. -/
def flagSpec (l : MatrixLayout) (calc_u : Bool) (calc_vt : Bool)
    (ju jvt : FlagSVD) : Prop :=
  match l with
  | MatrixLayout.F _ _ =>
    ((ju = FlagSVD.All) ↔ calc_u = true) ∧
      ((jvt = FlagSVD.All) ↔ calc_vt = true)
  | MatrixLayout.C _ _ =>
    ((ju = FlagSVD.All) ↔ calc_vt = true) ∧
      ((jvt = FlagSVD.All) ↔ calc_u = true)

/-- Content of a kernel factor slot seen as an optional buffer: present with
the buffer the kernel wrote when the slot flag is Full, absent otherwise. -/
def slotResult {A : Type} (flag : FlagSVD) (buf : List A) : Option (List A) :=
  match flag with
  | FlagSVD.All => some buf
  | FlagSVD.No => none

/-- Specification-side statement of the output-slot swap of section 4.1 of
the design: under column-major storage the returned fields are the slots
unswapped, under row-major storage the U slot is returned as vt and the Vt
slot as u. -/
def outputSwapSpec {A R : Type} (l : MatrixLayout)
    (uSlot vtSlot : Option (List A)) (out : SVDOutput A R) : Prop :=
  match l with
  | MatrixLayout.F _ _ => out.u = uSlot ∧ out.vt = vtSlot
  | MatrixLayout.C _ _ => out.u = vtSlot ∧ out.vt = uSlot

/-- Specification-side statement of the buffer allocations handed to a real
kernel invocation, with m the leading dimension and n the other dimension of
the layout: the U slot holds m*m zeroed elements iff its flag is Full and is
the empty slice otherwise, the Vt slot holds n*n zeroed elements iff its
flag is Full and is the empty slice otherwise, and the singular-value buffer
holds min m n zeroed elements. -/
def allocSpec {A R : Type} [Zero A] [Zero R] (l : MatrixLayout)
    (c : GesvdCall A R) : Prop :=
  (c.ju = FlagSVD.All → c.u = List.replicate (l.lda * l.lda) 0) ∧
  (c.ju = FlagSVD.No → c.u = []) ∧
  (c.jvt = FlagSVD.All → c.vt = List.replicate (l.len * l.len) 0) ∧
  (c.jvt = FlagSVD.No → c.vt = []) ∧
  c.s = List.replicate (min l.lda l.len) 0

/-- As `allocSpec`, for a complex kernel invocation. -/
def allocSpecC {A R : Type} [Zero A] [Zero R] (l : MatrixLayout)
    (c : GesvdCallC A R) : Prop :=
  (c.ju = FlagSVD.All → c.u = List.replicate (l.lda * l.lda) 0) ∧
  (c.ju = FlagSVD.No → c.u = []) ∧
  (c.jvt = FlagSVD.All → c.vt = List.replicate (l.len * l.len) 0) ∧
  (c.jvt = FlagSVD.No → c.vt = []) ∧
  c.s = List.replicate (min l.lda l.len) 0

/-- A list is sorted descending: every element is at least every later one. -/
def sorted_desc {R : Type} [LE R] (xs : List R) : Prop :=
  List.Pairwise (fun x y => y ≤ x) xs

/-- Integer stand-in for the scalar to-usize conversion of the witnesses:
defined exactly on nonnegative values. -/
def int_to_usize (x : Int) : Option Nat :=
  if 0 ≤ x then some x.toNat else none

/-- A well-behaved concrete real-kernel instance used by the witnesses: it
reports workspace size 2 on a query, always succeeds, keeps the factor
buffers as handed in and writes an empty singular-value list. -/
def demoKernel : GesvdCall Int Int → GesvdOut Int Int := fun c =>
  { a := c.a, s := [], u := c.u, vt := c.vt,
    work := if c.lwork = -1 then [2] else c.work, info := 0 }

/-- A well-behaved concrete complex-kernel instance used by the witnesses. -/
def demoKernelC : GesvdCallC Int Int → GesvdOutC Int Int := fun c =>
  { a := c.a, s := [], u := c.u, vt := c.vt,
    work := if c.lwork = -1 then [2] else c.work, rwork := c.rwork,
    info := 0 }

/-- A concrete kernel instance whose every invocation fails with status -1. -/
def failKernel : GesvdCall Int Int → GesvdOut Int Int := fun c =>
  { a := c.a, s := c.s, u := c.u, vt := c.vt, work := c.work, info := -1 }

/-- A concrete kernel instance that succeeds but reports the negative
workspace size -3, which does not convert to usize. -/
def badSizeKernel : GesvdCall Int Int → GesvdOut Int Int := fun c =>
  { a := c.a, s := c.s, u := c.u, vt := c.vt, work := [-3], info := 0 }

/-- As `badSizeKernel`, for the complex path. -/
def badSizeKernelC : GesvdCallC Int Int → GesvdOutC Int Int := fun c =>
  { a := c.a, s := c.s, u := c.u, vt := c.vt, work := [-3],
    rwork := c.rwork, info := 0 }

/-- The real-driver trace is either the query invocation alone or the query
invocation followed by the execution invocation built from the converted
reported size. -/
theorem svd_real_trace_shape {A R : Type} [Zero A] [Zero R]
    (gr : GesvdCall A R → GesvdOut A R) (tu : A → Option Nat)
    (l : MatrixLayout) (cu cv : Bool) (a : List A) :
    (svd_real gr tu l cu cv a).1 = [queryCall (svd_setup l cu cv) a] ∨
    ∃ lw, tu ((gr (queryCall (svd_setup l cu cv) a)).work.headD 0) = some lw ∧
      (svd_real gr tu l cu cv a).1 =
        [queryCall (svd_setup l cu cv) a,
          execCall (svd_setup l cu cv) (gr (queryCall (svd_setup l cu cv) a))
            lw] := by
  rcases h1 : as_lapack_result ((gr (queryCall (svd_setup l cu cv) a)).info)
    with e | u
  · left
    rw [svd_real_query_fail gr tu l cu cv a e h1]
  · cases u
    rcases h2 : tu ((gr (queryCall (svd_setup l cu cv) a)).work.headD 0)
      with _ | lw
    · left
      rw [svd_real_panic gr tu l cu cv a h1 h2]
    · right
      refine ⟨lw, rfl, ?_⟩
      rcases h3 : as_lapack_result ((gr (execCall (svd_setup l cu cv)
          (gr (queryCall (svd_setup l cu cv) a)) lw)).info) with e | u
      · rw [svd_real_exec_fail gr tu l cu cv a lw e h1 h2 h3]
      · cases u
        rw [svd_real_success gr tu l cu cv a lw h1 h2 h3]

/-- The complex-driver trace is either the query invocation alone or the
query invocation followed by the execution invocation built from the
converted reported size. -/
theorem svd_complex_trace_shape {A R : Type} [Zero A] [Zero R]
    (gc : GesvdCallC A R → GesvdOutC A R) (tu : A → Option Nat)
    (l : MatrixLayout) (cu cv : Bool) (a : List A) :
    (svd_complex gc tu l cu cv a).1 =
      [queryCallC (svd_setup l cu cv)
        (List.replicate (5 * (svd_setup l cu cv : SvdSetup A R).k) 0) a] ∨
    ∃ lw, tu ((gc (queryCallC (svd_setup l cu cv)
        (List.replicate (5 * (svd_setup l cu cv : SvdSetup A R).k) 0)
        a)).work.headD 0) = some lw ∧
      (svd_complex gc tu l cu cv a).1 =
        [queryCallC (svd_setup l cu cv)
          (List.replicate (5 * (svd_setup l cu cv : SvdSetup A R).k) 0) a,
          execCallC (svd_setup l cu cv)
            (gc (queryCallC (svd_setup l cu cv)
              (List.replicate (5 * (svd_setup l cu cv : SvdSetup A R).k) 0)
              a)) lw] := by
  rcases h1 : as_lapack_result ((gc (queryCallC (svd_setup l cu cv)
      (List.replicate (5 * (svd_setup l cu cv : SvdSetup A R).k) 0) a)).info)
    with e | u
  · left
    rw [svd_complex_query_fail gc tu l cu cv a e h1]
  · cases u
    rcases h2 : tu ((gc (queryCallC (svd_setup l cu cv)
        (List.replicate (5 * (svd_setup l cu cv : SvdSetup A R).k) 0)
        a)).work.headD 0) with _ | lw
    · left
      rw [svd_complex_panic gc tu l cu cv a h1 h2]
    · right
      refine ⟨lw, rfl, ?_⟩
      rcases h3 : as_lapack_result ((gc (execCallC (svd_setup l cu cv)
          (gc (queryCallC (svd_setup l cu cv)
            (List.replicate (5 * (svd_setup l cu cv : SvdSetup A R).k) 0)
            a)) lw)).info) with e | u
      · rw [svd_complex_exec_fail gc tu l cu cv a lw e h1 h2 h3]
      · cases u
        rw [svd_complex_success gc tu l cu cv a lw h1 h2 h3]

/-- The output swap under a column-major layout keeps the slots in place. -/
theorem svdPost_F {A R : Type} (r c : Nat) (s : List R)
    (u2 vt2 : Option (List A)) :
    svdPost (MatrixLayout.F r c) s u2 vt2 = { s := s, u := u2, vt := vt2 } :=
  rfl

/-- The output swap under a row-major layout exchanges the slots. -/
theorem svdPost_C {A R : Type} (r c : Nat) (s : List R)
    (u2 vt2 : Option (List A)) :
    svdPost (MatrixLayout.C r c) s u2 vt2 = { s := s, u := vt2, vt := u2 } :=
  rfl

/-- The flags computed by the setup satisfy the layout-swapped flag
specification. -/
theorem flagSpec_setup {A R : Type} [Zero A] [Zero R] (l : MatrixLayout)
    (cu cv : Bool) :
    flagSpec l cu cv (svd_setup l cu cv : SvdSetup A R).ju
      (svd_setup l cu cv : SvdSetup A R).jvt := by
  cases l <;> cases cu <;> cases cv <;>
    simp [flagSpec, svd_setup, FlagSVD.from_bool]

/-- The query invocation of the real path carries the allocations described
by `allocSpec`. -/
theorem allocSpec_queryCall {A R : Type} [Zero A] [Zero R] (l : MatrixLayout)
    (cu cv : Bool) (a : List A) :
    allocSpec l (queryCall (svd_setup l cu cv) a : GesvdCall A R) := by
  have hu := svd_setup_u (A := A) (R := R) l cu cv
  have hvt := svd_setup_vt (A := A) (R := R) l cu cv
  refine ⟨?_, ?_, ?_, ?_, ?_⟩
  · intro h
    simp only [queryCall] at h ⊢
    rw [hu, h]
    rfl
  · intro h
    simp only [queryCall] at h ⊢
    rw [hu, h]
    rfl
  · intro h
    simp only [queryCall] at h ⊢
    rw [hvt, h]
    rfl
  · intro h
    simp only [queryCall] at h ⊢
    rw [hvt, h]
    rfl
  · simpa only [queryCall] using svd_setup_s (A := A) (R := R) l cu cv

/-- The query invocation of the complex path carries the allocations
described by `allocSpecC`. -/
theorem allocSpecC_queryCallC {A R : Type} [Zero A] [Zero R]
    (l : MatrixLayout) (cu cv : Bool) (rw : List R) (a : List A) :
    allocSpecC l (queryCallC (svd_setup l cu cv) rw a : GesvdCallC A R) := by
  have hu := svd_setup_u (A := A) (R := R) l cu cv
  have hvt := svd_setup_vt (A := A) (R := R) l cu cv
  refine ⟨?_, ?_, ?_, ?_, ?_⟩
  · intro h
    simp only [queryCallC] at h ⊢
    rw [hu, h]
    rfl
  · intro h
    simp only [queryCallC] at h ⊢
    rw [hu, h]
    rfl
  · intro h
    simp only [queryCallC] at h ⊢
    rw [hvt, h]
    rfl
  · intro h
    simp only [queryCallC] at h ⊢
    rw [hvt, h]
    rfl
  · simpa only [queryCallC] using svd_setup_s (A := A) (R := R) l cu cv

/-- C1: for every call to svd (real and complex paths alike), the
kernel-facing factor flags are resolved with the layout swap: when the
layout is column-major, the U-slot flag is Full iff calc_u and the Vt-slot
flag is Full iff calc_vt; when the layout is row-major, the U-slot flag is
Full iff calc_vt and the Vt-slot flag is Full iff calc_u. -/
theorem svd_flag_resolution {A R : Type} [Zero A] [Zero R]
    (gr : GesvdCall A R → GesvdOut A R) (gc : GesvdCallC A R → GesvdOutC A R)
    (tu : A → Option Nat) (l : MatrixLayout) (cu cv : Bool) (a : List A)
    (c : GesvdCall A R) (hc : c ∈ (svd_real gr tu l cu cv a).1)
    (d : GesvdCallC A R) (hd : d ∈ (svd_complex gc tu l cu cv a).1) :
    flagSpec l cu cv c.ju c.jvt ∧ flagSpec l cu cv d.ju d.jvt := by
  constructor
  · have hju : c.ju = (svd_setup l cu cv : SvdSetup A R).ju ∧
        c.jvt = (svd_setup l cu cv : SvdSetup A R).jvt := by
      rcases svd_real_trace_shape gr tu l cu cv a with h | ⟨lw, _, h⟩ <;>
        rw [h] at hc <;> simp only [List.mem_singleton, List.mem_cons,
          List.not_mem_nil, or_false] at hc
      · subst hc
        exact ⟨rfl, rfl⟩
      · rcases hc with hc | hc <;> subst hc <;> exact ⟨rfl, rfl⟩
    rw [hju.1, hju.2]
    exact flagSpec_setup l cu cv
  · have hju : d.ju = (svd_setup l cu cv : SvdSetup A R).ju ∧
        d.jvt = (svd_setup l cu cv : SvdSetup A R).jvt := by
      rcases svd_complex_trace_shape gc tu l cu cv a with h | ⟨lw, _, h⟩ <;>
        rw [h] at hd <;> simp only [List.mem_singleton, List.mem_cons,
          List.not_mem_nil, or_false] at hd
      · subst hd
        exact ⟨rfl, rfl⟩
      · rcases hd with hd | hd <;> subst hd <;> exact ⟨rfl, rfl⟩
    rw [hju.1, hju.2]
    exact flagSpec_setup l cu cv

/-- Witness for C1 at a concrete column-major call requesting only U. -/
theorem svd_flag_resolution_witness :
    flagSpec (MatrixLayout.F 2 2) true false
      (queryCall (svd_setup (MatrixLayout.F 2 2) true false)
        [1, 0, 0, 1] : GesvdCall Int Int).ju
      (queryCall (svd_setup (MatrixLayout.F 2 2) true false)
        [1, 0, 0, 1] : GesvdCall Int Int).jvt ∧
    flagSpec (MatrixLayout.F 2 2) true false
      (queryCallC (svd_setup (MatrixLayout.F 2 2) true false)
        (List.replicate
          (5 * (svd_setup (MatrixLayout.F 2 2) true false :
            SvdSetup Int Int).k) 0)
        [1, 0, 0, 1] : GesvdCallC Int Int).ju
      (queryCallC (svd_setup (MatrixLayout.F 2 2) true false)
        (List.replicate
          (5 * (svd_setup (MatrixLayout.F 2 2) true false :
            SvdSetup Int Int).k) 0)
        [1, 0, 0, 1] : GesvdCallC Int Int).jvt :=
  svd_flag_resolution demoKernel demoKernelC int_to_usize
    (MatrixLayout.F 2 2) true false [1, 0, 0, 1] _ (by decide) _ (by decide)

/-- C4: for every call to svd, with m the leading dimension, n the other
dimension and k = min m n, the first kernel invocation receives a U-slot
buffer of exactly m*m zeroed elements iff the U-slot flag is Full and the
empty slice otherwise, a Vt-slot buffer of exactly n*n zeroed elements iff
the Vt-slot flag is Full and the empty slice otherwise, and a
singular-value buffer of exactly k zeroed elements. -/
theorem svd_buffer_allocation {A R : Type} [Zero A] [Zero R]
    (gr : GesvdCall A R → GesvdOut A R) (gc : GesvdCallC A R → GesvdOutC A R)
    (tu : A → Option Nat) (l : MatrixLayout) (cu cv : Bool) (a : List A) :
    (∃ c rest, (svd_real gr tu l cu cv a).1 = c :: rest ∧ allocSpec l c) ∧
    (∃ d rest, (svd_complex gc tu l cu cv a).1 = d :: rest ∧
      allocSpecC l d) := by
  constructor
  · rcases svd_real_trace_shape gr tu l cu cv a with h | ⟨lw, _, h⟩
    · exact ⟨_, _, h, allocSpec_queryCall l cu cv a⟩
    · exact ⟨_, _, h, allocSpec_queryCall l cu cv a⟩
  · rcases svd_complex_trace_shape gc tu l cu cv a with h | ⟨lw, _, h⟩
    · exact ⟨_, _, h, allocSpecC_queryCallC l cu cv _ a⟩
    · exact ⟨_, _, h, allocSpecC_queryCallC l cu cv _ a⟩

/-- C8 counterexample: a kernel whose workspace query fails with status -1
makes svd perform a single kernel invocation, not two. -/
theorem svd_two_invocations_cex :
    ((svd_real failKernel int_to_usize (MatrixLayout.F 2 2) true true
      [1, 0, 0, 1]).1).length = 1 := by decide

/-- C8 amended: every call to svd performs at most two kernel invocations;
the workspace query is always performed first, and the execution invocation,
when performed, is second; exactly two invocations occur iff the query
reports status zero and its reported size converts to usize. -/
theorem svd_invocation_discipline {A R : Type} [Zero A] [Zero R]
    (gr : GesvdCall A R → GesvdOut A R) (gc : GesvdCallC A R → GesvdOutC A R)
    (tu : A → Option Nat) (l : MatrixLayout) (cu cv : Bool) (a : List A) :
    ((svd_real gr tu l cu cv a).1 = [queryCall (svd_setup l cu cv) a] ∨
      ∃ lw, tu ((gr (queryCall (svd_setup l cu cv) a)).work.headD 0) =
          some lw ∧
        (svd_real gr tu l cu cv a).1 =
          [queryCall (svd_setup l cu cv) a,
            execCall (svd_setup l cu cv)
              (gr (queryCall (svd_setup l cu cv) a)) lw]) ∧
    (((svd_real gr tu l cu cv a).1.length = 2) ↔
      ((gr (queryCall (svd_setup l cu cv) a)).info = 0 ∧
        ∃ lw, tu ((gr (queryCall (svd_setup l cu cv) a)).work.headD 0) =
          some lw)) ∧
    ((svd_complex gc tu l cu cv a).1 =
        [queryCallC (svd_setup l cu cv)
          (List.replicate (5 * (svd_setup l cu cv : SvdSetup A R).k) 0) a] ∨
      ∃ lw, tu ((gc (queryCallC (svd_setup l cu cv)
            (List.replicate (5 * (svd_setup l cu cv : SvdSetup A R).k) 0)
            a)).work.headD 0) = some lw ∧
        (svd_complex gc tu l cu cv a).1 =
          [queryCallC (svd_setup l cu cv)
            (List.replicate (5 * (svd_setup l cu cv : SvdSetup A R).k) 0) a,
            execCallC (svd_setup l cu cv)
              (gc (queryCallC (svd_setup l cu cv)
                (List.replicate
                  (5 * (svd_setup l cu cv : SvdSetup A R).k) 0) a)) lw]) ∧
    (((svd_complex gc tu l cu cv a).1.length = 2) ↔
      ((gc (queryCallC (svd_setup l cu cv)
          (List.replicate (5 * (svd_setup l cu cv : SvdSetup A R).k) 0)
          a)).info = 0 ∧
        ∃ lw, tu ((gc (queryCallC (svd_setup l cu cv)
            (List.replicate (5 * (svd_setup l cu cv : SvdSetup A R).k) 0)
            a)).work.headD 0) = some lw)) := by
  refine ⟨svd_real_trace_shape gr tu l cu cv a, ?_,
    svd_complex_trace_shape gc tu l cu cv a, ?_⟩
  · constructor
    · intro h2
      rcases h1 : as_lapack_result
          ((gr (queryCall (svd_setup l cu cv) a)).info) with e | u
      · rw [svd_real_query_fail gr tu l cu cv a e h1] at h2
        simp at h2
      · cases u
        rcases hlw : tu ((gr (queryCall (svd_setup l cu cv) a)).work.headD 0)
          with _ | lw
        · rw [svd_real_panic gr tu l cu cv a h1 hlw] at h2
          simp at h2
        · exact ⟨(as_lapack_result_ok_iff _).1 h1, lw, rfl⟩
    · rintro ⟨h1, lw, hlw⟩
      have h1 : as_lapack_result
          ((gr (queryCall (svd_setup l cu cv) a)).info) = Except.ok () :=
        (as_lapack_result_ok_iff _).2 h1
      rcases h3 : as_lapack_result ((gr (execCall (svd_setup l cu cv)
          (gr (queryCall (svd_setup l cu cv) a)) lw)).info) with e | u
      · rw [svd_real_exec_fail gr tu l cu cv a lw e h1 hlw h3]
        rfl
      · cases u
        rw [svd_real_success gr tu l cu cv a lw h1 hlw h3]
        rfl
  · constructor
    · intro h2
      rcases h1 : as_lapack_result ((gc (queryCallC (svd_setup l cu cv)
          (List.replicate (5 * (svd_setup l cu cv : SvdSetup A R).k) 0)
          a)).info) with e | u
      · rw [svd_complex_query_fail gc tu l cu cv a e h1] at h2
        simp at h2
      · cases u
        rcases hlw : tu ((gc (queryCallC (svd_setup l cu cv)
            (List.replicate (5 * (svd_setup l cu cv : SvdSetup A R).k) 0)
            a)).work.headD 0) with _ | lw
        · rw [svd_complex_panic gc tu l cu cv a h1 hlw] at h2
          simp at h2
        · exact ⟨(as_lapack_result_ok_iff _).1 h1, lw, rfl⟩
    · rintro ⟨h1, lw, hlw⟩
      have h1 : as_lapack_result ((gc (queryCallC (svd_setup l cu cv)
          (List.replicate (5 * (svd_setup l cu cv : SvdSetup A R).k) 0)
          a)).info) = Except.ok () := (as_lapack_result_ok_iff _).2 h1
      rcases h3 : as_lapack_result ((gc (execCallC (svd_setup l cu cv)
          (gc (queryCallC (svd_setup l cu cv)
            (List.replicate (5 * (svd_setup l cu cv : SvdSetup A R).k) 0)
            a)) lw)).info) with e | u
      · rw [svd_complex_exec_fail gc tu l cu cv a lw e h1 hlw h3]
        rfl
      · cases u
        rw [svd_complex_success gc tu l cu cv a lw h1 hlw h3]
        rfl

/-- A successful real-driver call determines the whole run: the query
succeeded, its size converted, the execution succeeded, the trace is the
query then the execution, and the output is the swapped post-processing of
the execution results. -/
theorem svd_real_ok_elim {A R : Type} [Zero A] [Zero R]
    (gr : GesvdCall A R → GesvdOut A R) (tu : A → Option Nat)
    (l : MatrixLayout) (cu cv : Bool) (a : List A) (out : SVDOutput A R)
    (hok : (svd_real gr tu l cu cv a).2 = SvdResult.ok out) :
    ∃ lw, tu ((gr (queryCall (svd_setup l cu cv) a)).work.headD 0) =
        some lw ∧
      as_lapack_result ((gr (queryCall (svd_setup l cu cv) a)).info) =
        Except.ok () ∧
      as_lapack_result ((gr (execCall (svd_setup l cu cv)
        (gr (queryCall (svd_setup l cu cv) a)) lw)).info) = Except.ok () ∧
      (svd_real gr tu l cu cv a).1 =
        [queryCall (svd_setup l cu cv) a,
          execCall (svd_setup l cu cv) (gr (queryCall (svd_setup l cu cv) a))
            lw] ∧
      out = svdPost l
        ((gr (execCall (svd_setup l cu cv)
          (gr (queryCall (svd_setup l cu cv) a)) lw)).s)
        ((svd_setup l cu cv : SvdSetup A R).u.map fun _ =>
          (gr (execCall (svd_setup l cu cv)
            (gr (queryCall (svd_setup l cu cv) a)) lw)).u)
        ((svd_setup l cu cv : SvdSetup A R).vt.map fun _ =>
          (gr (execCall (svd_setup l cu cv)
            (gr (queryCall (svd_setup l cu cv) a)) lw)).vt) := by
  rcases h1 : as_lapack_result ((gr (queryCall (svd_setup l cu cv) a)).info)
    with e | u
  · rw [svd_real_query_fail gr tu l cu cv a e h1] at hok
    simp at hok
  · cases u
    rcases h2 : tu ((gr (queryCall (svd_setup l cu cv) a)).work.headD 0)
      with _ | lw
    · rw [svd_real_panic gr tu l cu cv a h1 h2] at hok
      simp at hok
    · rcases h3 : as_lapack_result ((gr (execCall (svd_setup l cu cv)
          (gr (queryCall (svd_setup l cu cv) a)) lw)).info) with e | u
      · rw [svd_real_exec_fail gr tu l cu cv a lw e h1 h2 h3] at hok
        simp at hok
      · cases u
        have htr := svd_real_success gr tu l cu cv a lw h1 h2 h3
        rw [htr] at hok
        simp only [SvdResult.ok.injEq] at hok
        refine ⟨lw, rfl, rfl, h3, ?_, hok.symm⟩
        rw [htr]

/-- A successful complex-driver call determines the whole run, as in the
real case. -/
theorem svd_complex_ok_elim {A R : Type} [Zero A] [Zero R]
    (gc : GesvdCallC A R → GesvdOutC A R) (tu : A → Option Nat)
    (l : MatrixLayout) (cu cv : Bool) (a : List A) (out : SVDOutput A R)
    (hok : (svd_complex gc tu l cu cv a).2 = SvdResult.ok out) :
    ∃ lw, tu ((gc (queryCallC (svd_setup l cu cv)
        (List.replicate (5 * (svd_setup l cu cv : SvdSetup A R).k) 0)
        a)).work.headD 0) = some lw ∧
      as_lapack_result ((gc (queryCallC (svd_setup l cu cv)
        (List.replicate (5 * (svd_setup l cu cv : SvdSetup A R).k) 0)
        a)).info) = Except.ok () ∧
      as_lapack_result ((gc (execCallC (svd_setup l cu cv)
        (gc (queryCallC (svd_setup l cu cv)
          (List.replicate (5 * (svd_setup l cu cv : SvdSetup A R).k) 0) a))
        lw)).info) = Except.ok () ∧
      (svd_complex gc tu l cu cv a).1 =
        [queryCallC (svd_setup l cu cv)
          (List.replicate (5 * (svd_setup l cu cv : SvdSetup A R).k) 0) a,
          execCallC (svd_setup l cu cv)
            (gc (queryCallC (svd_setup l cu cv)
              (List.replicate (5 * (svd_setup l cu cv : SvdSetup A R).k) 0)
              a)) lw] ∧
      out = svdPost l
        ((gc (execCallC (svd_setup l cu cv)
          (gc (queryCallC (svd_setup l cu cv)
            (List.replicate (5 * (svd_setup l cu cv : SvdSetup A R).k) 0)
            a)) lw)).s)
        ((svd_setup l cu cv : SvdSetup A R).u.map fun _ =>
          (gc (execCallC (svd_setup l cu cv)
            (gc (queryCallC (svd_setup l cu cv)
              (List.replicate (5 * (svd_setup l cu cv : SvdSetup A R).k) 0)
              a)) lw)).u)
        ((svd_setup l cu cv : SvdSetup A R).vt.map fun _ =>
          (gc (execCallC (svd_setup l cu cv)
            (gc (queryCallC (svd_setup l cu cv)
              (List.replicate (5 * (svd_setup l cu cv : SvdSetup A R).k) 0)
              a)) lw)).vt) := by
  rcases h1 : as_lapack_result ((gc (queryCallC (svd_setup l cu cv)
      (List.replicate (5 * (svd_setup l cu cv : SvdSetup A R).k) 0)
      a)).info) with e | u
  · rw [svd_complex_query_fail gc tu l cu cv a e h1] at hok
    simp at hok
  · cases u
    rcases h2 : tu ((gc (queryCallC (svd_setup l cu cv)
        (List.replicate (5 * (svd_setup l cu cv : SvdSetup A R).k) 0)
        a)).work.headD 0) with _ | lw
    · rw [svd_complex_panic gc tu l cu cv a h1 h2] at hok
      simp at hok
    · rcases h3 : as_lapack_result ((gc (execCallC (svd_setup l cu cv)
          (gc (queryCallC (svd_setup l cu cv)
            (List.replicate (5 * (svd_setup l cu cv : SvdSetup A R).k) 0)
            a)) lw)).info) with e | u
      · rw [svd_complex_exec_fail gc tu l cu cv a lw e h1 h2 h3] at hok
        simp at hok
      · cases u
        have htr := svd_complex_success gc tu l cu cv a lw h1 h2 h3
        rw [htr] at hok
        simp only [SvdResult.ok.injEq] at hok
        refine ⟨lw, rfl, rfl, h3, ?_, hok.symm⟩
        rw [htr]

/-- Writing a constant into the U slot of the setup yields exactly the slot
content determined by the U-slot flag. -/
theorem setup_u_map_slot {A R : Type} [Zero A] [Zero R] (l : MatrixLayout)
    (cu cv : Bool) (x : List A) :
    (svd_setup l cu cv : SvdSetup A R).u.map (fun _ => x) =
      slotResult (svd_setup l cu cv : SvdSetup A R).ju x := by
  rw [svd_setup_u]
  rcases (svd_setup l cu cv : SvdSetup A R).ju with _ | _ <;> rfl

/-- Writing a constant into the Vt slot of the setup yields exactly the slot
content determined by the Vt-slot flag. -/
theorem setup_vt_map_slot {A R : Type} [Zero A] [Zero R] (l : MatrixLayout)
    (cu cv : Bool) (x : List A) :
    (svd_setup l cu cv : SvdSetup A R).vt.map (fun _ => x) =
      slotResult (svd_setup l cu cv : SvdSetup A R).jvt x := by
  rw [svd_setup_vt]
  rcases (svd_setup l cu cv : SvdSetup A R).jvt with _ | _ <;> rfl

/-- The post-processed output satisfies the output-swap specification with
respect to the slots it was assembled from. -/
theorem outputSwapSpec_svdPost {A R : Type} (l : MatrixLayout) (s : List R)
    (u2 vt2 : Option (List A)) :
    outputSwapSpec l u2 vt2 (svdPost l s u2 vt2) := by
  cases l <;> exact ⟨rfl, rfl⟩

/-- Mapping over an option preserves presence. -/
theorem option_map_isSome {A B : Type} (o : Option A) (f : A → B) :
    (o.map f).isSome = o.isSome := by
  cases o <;> rfl

/-- Presence of the U-slot allocation under a column-major layout equals the
request for U. -/
theorem svd_setup_u_isSome_F {A R : Type} [Zero A] [Zero R] (r c : Nat)
    (cu cv : Bool) :
    ((svd_setup (MatrixLayout.F r c) cu cv : SvdSetup A R).u).isSome = cu := by
  cases cu <;> rfl

/-- Presence of the U-slot allocation under a row-major layout equals the
request for Vt. -/
theorem svd_setup_u_isSome_C {A R : Type} [Zero A] [Zero R] (r c : Nat)
    (cu cv : Bool) :
    ((svd_setup (MatrixLayout.C r c) cu cv : SvdSetup A R).u).isSome = cv := by
  cases cv <;> rfl

/-- Presence of the Vt-slot allocation under a column-major layout equals
the request for Vt. -/
theorem svd_setup_vt_isSome_F {A R : Type} [Zero A] [Zero R] (r c : Nat)
    (cu cv : Bool) :
    ((svd_setup (MatrixLayout.F r c) cu cv :
      SvdSetup A R).vt).isSome = cv := by
  cases cv <;> rfl

/-- Presence of the Vt-slot allocation under a row-major layout equals the
request for U. -/
theorem svd_setup_vt_isSome_C {A R : Type} [Zero A] [Zero R] (r c : Nat)
    (cu cv : Bool) :
    ((svd_setup (MatrixLayout.C r c) cu cv :
      SvdSetup A R).vt).isSome = cu := by
  cases cu <;> rfl

/-- C3: for every layout and every successful call to svd (real and complex
paths alike), the returned output has u present iff calc_u was true and vt
present iff calc_vt was true; the singular-value field is returned in every
case. -/
theorem svd_selective_computation {A R : Type} [Zero A] [Zero R]
    (gr : GesvdCall A R → GesvdOut A R) (gc : GesvdCallC A R → GesvdOutC A R)
    (tu : A → Option Nat) (l : MatrixLayout) (cu cv : Bool) (a : List A)
    (out outc : SVDOutput A R)
    (hok : (svd_real gr tu l cu cv a).2 = SvdResult.ok out)
    (hokC : (svd_complex gc tu l cu cv a).2 = SvdResult.ok outc) :
    out.u.isSome = cu ∧ out.vt.isSome = cv ∧
      outc.u.isSome = cu ∧ outc.vt.isSome = cv := by
  obtain ⟨lw, -, -, -, -, hout⟩ := svd_real_ok_elim gr tu l cu cv a out hok
  obtain ⟨lwc, -, -, -, -, houtc⟩ :=
    svd_complex_ok_elim gc tu l cu cv a outc hokC
  subst hout
  subst houtc
  rcases l with ⟨r, c⟩ | ⟨r, c⟩ <;>
    simp only [svdPost, option_map_isSome, svd_setup_u_isSome_F,
      svd_setup_u_isSome_C, svd_setup_vt_isSome_F, svd_setup_vt_isSome_C] <;>
    exact ⟨trivial, trivial, trivial, trivial⟩

/-- Witness for C3 at a concrete column-major call requesting only U. -/
theorem svd_selective_computation_witness :
    ({ s := [], u := some [0], vt := none } :
        SVDOutput Int Int).u.isSome = true ∧
    ({ s := [], u := some [0], vt := none } :
        SVDOutput Int Int).vt.isSome = false ∧
    ({ s := [], u := some [0], vt := none } :
        SVDOutput Int Int).u.isSome = true ∧
    ({ s := [], u := some [0], vt := none } :
        SVDOutput Int Int).vt.isSome = false :=
  svd_selective_computation demoKernel demoKernelC int_to_usize
    (MatrixLayout.F 1 1) true false [7]
    { s := [], u := some [0], vt := none }
    { s := [], u := some [0], vt := none } (by decide) (by decide)

/-- C2: for every successful call to svd (real and complex paths alike), the
output-slot swap is applied before returning: under a row-major layout the
kernel U-slot content is returned in the vt field and the kernel Vt-slot
content in the u field; under a column-major layout the fields are returned
unswapped. -/
theorem svd_output_slot_swap {A R : Type} [Zero A] [Zero R]
    (gr : GesvdCall A R → GesvdOut A R) (gc : GesvdCallC A R → GesvdOutC A R)
    (tu : A → Option Nat) (l : MatrixLayout) (cu cv : Bool) (a : List A)
    (out outc : SVDOutput A R)
    (hok : (svd_real gr tu l cu cv a).2 = SvdResult.ok out)
    (hokC : (svd_complex gc tu l cu cv a).2 = SvdResult.ok outc) :
    (∃ c1 c2, (svd_real gr tu l cu cv a).1 = [c1, c2] ∧
      outputSwapSpec l (slotResult c2.ju (gr c2).u)
        (slotResult c2.jvt (gr c2).vt) out ∧ out.s = (gr c2).s) ∧
    (∃ d1 d2, (svd_complex gc tu l cu cv a).1 = [d1, d2] ∧
      outputSwapSpec l (slotResult d2.ju (gc d2).u)
        (slotResult d2.jvt (gc d2).vt) outc ∧ outc.s = (gc d2).s) := by
  obtain ⟨lw, -, -, -, htr, hout⟩ := svd_real_ok_elim gr tu l cu cv a out hok
  obtain ⟨lwc, -, -, -, htrc, houtc⟩ :=
    svd_complex_ok_elim gc tu l cu cv a outc hokC
  constructor
  · refine ⟨_, _, htr, ?_, ?_⟩
    · rw [hout]
      have hju : (execCall (svd_setup l cu cv)
          (gr (queryCall (svd_setup l cu cv) a)) lw).ju =
          (svd_setup l cu cv : SvdSetup A R).ju := rfl
      have hjvt : (execCall (svd_setup l cu cv)
          (gr (queryCall (svd_setup l cu cv) a)) lw).jvt =
          (svd_setup l cu cv : SvdSetup A R).jvt := rfl
      rw [hju, hjvt, ← setup_u_map_slot, ← setup_vt_map_slot]
      exact outputSwapSpec_svdPost l _ _ _
    · rw [hout]
      rcases l with ⟨r, c⟩ | ⟨r, c⟩ <;> rfl
  · refine ⟨_, _, htrc, ?_, ?_⟩
    · rw [houtc]
      have hju : (execCallC (svd_setup l cu cv)
          (gc (queryCallC (svd_setup l cu cv)
            (List.replicate (5 * (svd_setup l cu cv : SvdSetup A R).k) 0) a))
          lwc).ju = (svd_setup l cu cv : SvdSetup A R).ju := rfl
      have hjvt : (execCallC (svd_setup l cu cv)
          (gc (queryCallC (svd_setup l cu cv)
            (List.replicate (5 * (svd_setup l cu cv : SvdSetup A R).k) 0) a))
          lwc).jvt = (svd_setup l cu cv : SvdSetup A R).jvt := rfl
      rw [hju, hjvt, ← setup_u_map_slot, ← setup_vt_map_slot]
      exact outputSwapSpec_svdPost l _ _ _
    · rw [houtc]
      rcases l with ⟨r, c⟩ | ⟨r, c⟩ <;> rfl

/-- Witness for C2 at a concrete row-major call requesting only U: the
kernel Vt-slot content comes back in the u field. -/
theorem svd_output_slot_swap_witness :
    (∃ c1 c2, (svd_real demoKernel int_to_usize (MatrixLayout.C 1 1) true
        false [7]).1 = [c1, c2] ∧
      outputSwapSpec (MatrixLayout.C 1 1) (slotResult c2.ju (demoKernel c2).u)
        (slotResult c2.jvt (demoKernel c2).vt)
        ({ s := [], u := some [0], vt := none } : SVDOutput Int Int) ∧
      ({ s := [], u := some [0], vt := none } :
        SVDOutput Int Int).s = (demoKernel c2).s) ∧
    (∃ d1 d2, (svd_complex demoKernelC int_to_usize (MatrixLayout.C 1 1) true
        false [7]).1 = [d1, d2] ∧
      outputSwapSpec (MatrixLayout.C 1 1)
        (slotResult d2.ju (demoKernelC d2).u)
        (slotResult d2.jvt (demoKernelC d2).vt)
        ({ s := [], u := some [0], vt := none } : SVDOutput Int Int) ∧
      ({ s := [], u := some [0], vt := none } :
        SVDOutput Int Int).s = (demoKernelC d2).s) :=
  svd_output_slot_swap demoKernel demoKernelC int_to_usize
    (MatrixLayout.C 1 1) true false [7]
    { s := [], u := some [0], vt := none }
    { s := [], u := some [0], vt := none } (by decide) (by decide)

/-- The post-processed output returns the singular values unchanged under
either layout. -/
theorem svdPost_s {A R : Type} (l : MatrixLayout) (s : List R)
    (u2 vt2 : Option (List A)) : (svdPost l s u2 vt2).s = s := by
  cases l <;> rfl

/-- The i32 cast is the identity below 2 to the 31. -/
theorem i32cast_small (x : Nat) (h : x < 2 ^ 31) : i32cast x = x := by
  unfold i32cast
  have h32 : x % 2 ^ 32 = x := Nat.mod_eq_of_lt (by omega)
  rw [h32, if_pos h]

/-- C10: if the workspace query succeeds but the reported optimal size does
not convert to usize, svd panics (on both the real and the complex path)
instead of returning an error result. -/
theorem svd_unwrap_panic {A R : Type} [Zero A] [Zero R]
    (gr : GesvdCall A R → GesvdOut A R) (gc : GesvdCallC A R → GesvdOutC A R)
    (tu : A → Option Nat) (l : MatrixLayout) (cu cv : Bool) (a : List A)
    (h1 : as_lapack_result ((gr (queryCall (svd_setup l cu cv) a)).info) =
      Except.ok ())
    (h2 : tu ((gr (queryCall (svd_setup l cu cv) a)).work.headD 0) = none)
    (h1c : as_lapack_result ((gc (queryCallC (svd_setup l cu cv)
      (List.replicate (5 * (svd_setup l cu cv : SvdSetup A R).k) 0)
      a)).info) = Except.ok ())
    (h2c : tu ((gc (queryCallC (svd_setup l cu cv)
      (List.replicate (5 * (svd_setup l cu cv : SvdSetup A R).k) 0)
      a)).work.headD 0) = none) :
    (svd_real gr tu l cu cv a).2 = SvdResult.panicked ∧
      (svd_complex gc tu l cu cv a).2 = SvdResult.panicked := by
  rw [svd_real_panic gr tu l cu cv a h1 h2,
    svd_complex_panic gc tu l cu cv a h1c h2c]
  exact ⟨rfl, rfl⟩

/-- Witness for C10: a kernel reporting the unconvertible size -3 after a
successful query makes both drivers panic. -/
theorem svd_unwrap_panic_witness :
    (svd_real badSizeKernel int_to_usize (MatrixLayout.F 1 1) true false
      [7]).2 = SvdResult.panicked ∧
    (svd_complex badSizeKernelC int_to_usize (MatrixLayout.F 1 1) true false
      [7]).2 = SvdResult.panicked :=
  svd_unwrap_panic badSizeKernel badSizeKernelC int_to_usize
    (MatrixLayout.F 1 1) true false [7] (by rfl) (by decide) (by rfl)
    (by decide)

/-- C5: for every call to svd whose trace reaches the execution invocation,
the first invocation is a workspace query with a one-element scratch buffer
and the sentinel size -1 whose status was checked successfully, and the
second invocation carries a freshly allocated zeroed scratch buffer whose
length is the converted optimal size the kernel reported in the first
element of the query scratch buffer, that length (below 2 to the 31, the
range of the i32 argument) also being passed as the declared scratch
length. -/
theorem svd_workspace_protocol {A R : Type} [Zero A] [Zero R]
    (gr : GesvdCall A R → GesvdOut A R) (gc : GesvdCallC A R → GesvdOutC A R)
    (tu : A → Option Nat) (l : MatrixLayout) (cu cv : Bool) (a : List A)
    (lw lwc : Nat) (c1 c2 : GesvdCall A R) (d1 d2 : GesvdCallC A R)
    (htr : (svd_real gr tu l cu cv a).1 = [c1, c2])
    (hlw : tu ((gr c1).work.headD 0) = some lw)
    (hsm : lw < 2 ^ 31)
    (htrc : (svd_complex gc tu l cu cv a).1 = [d1, d2])
    (hlwc : tu ((gc d1).work.headD 0) = some lwc)
    (hsmc : lwc < 2 ^ 31) :
    (c1.work = [0] ∧ c1.lwork = -1 ∧ (gr c1).info = 0 ∧
      c2.work = List.replicate lw 0 ∧ c2.lwork = lw) ∧
    (d1.work = [0] ∧ d1.lwork = -1 ∧ (gc d1).info = 0 ∧
      d2.work = List.replicate lwc 0 ∧ d2.lwork = lwc) := by
  constructor
  · rcases h1 : as_lapack_result
        ((gr (queryCall (svd_setup l cu cv) a)).info) with e | u
    · rw [svd_real_query_fail gr tu l cu cv a e h1] at htr
      simp at htr
    · cases u
      rcases h2 : tu ((gr (queryCall (svd_setup l cu cv) a)).work.headD 0)
        with _ | lw2
      · rw [svd_real_panic gr tu l cu cv a h1 h2] at htr
        simp at htr
      · have htr2 : (svd_real gr tu l cu cv a).1 =
            [queryCall (svd_setup l cu cv) a,
              execCall (svd_setup l cu cv)
                (gr (queryCall (svd_setup l cu cv) a)) lw2] := by
          rcases h3 : as_lapack_result ((gr (execCall (svd_setup l cu cv)
              (gr (queryCall (svd_setup l cu cv) a)) lw2)).info) with e | u
          · rw [svd_real_exec_fail gr tu l cu cv a lw2 e h1 h2 h3]
          · cases u
            rw [svd_real_success gr tu l cu cv a lw2 h1 h2 h3]
        rw [htr] at htr2
        have hc1 : c1 = queryCall (svd_setup l cu cv) a := by
          injection htr2
        have hc2 : c2 = execCall (svd_setup l cu cv)
            (gr (queryCall (svd_setup l cu cv) a)) lw2 := by
          injection htr2 with _ h
          injection h
        subst hc1
        have hlw2 : lw2 = lw := by
          rw [h2] at hlw
          injection hlw
        subst hlw2
        subst hc2
        refine ⟨rfl, rfl, (as_lapack_result_ok_iff _).1 h1, rfl, ?_⟩
        exact i32cast_small lw2 hsm
  · rcases h1 : as_lapack_result ((gc (queryCallC (svd_setup l cu cv)
        (List.replicate (5 * (svd_setup l cu cv : SvdSetup A R).k) 0)
        a)).info) with e | u
    · rw [svd_complex_query_fail gc tu l cu cv a e h1] at htrc
      simp at htrc
    · cases u
      rcases h2 : tu ((gc (queryCallC (svd_setup l cu cv)
          (List.replicate (5 * (svd_setup l cu cv : SvdSetup A R).k) 0)
          a)).work.headD 0) with _ | lw2
      · rw [svd_complex_panic gc tu l cu cv a h1 h2] at htrc
        simp at htrc
      · have htr2 : (svd_complex gc tu l cu cv a).1 =
            [queryCallC (svd_setup l cu cv)
              (List.replicate (5 * (svd_setup l cu cv : SvdSetup A R).k) 0) a,
              execCallC (svd_setup l cu cv)
                (gc (queryCallC (svd_setup l cu cv)
                  (List.replicate
                    (5 * (svd_setup l cu cv : SvdSetup A R).k) 0) a))
                lw2] := by
          rcases h3 : as_lapack_result ((gc (execCallC (svd_setup l cu cv)
              (gc (queryCallC (svd_setup l cu cv)
                (List.replicate
                  (5 * (svd_setup l cu cv : SvdSetup A R).k) 0) a))
              lw2)).info) with e | u
          · rw [svd_complex_exec_fail gc tu l cu cv a lw2 e h1 h2 h3]
          · cases u
            rw [svd_complex_success gc tu l cu cv a lw2 h1 h2 h3]
        rw [htrc] at htr2
        have hd1 : d1 = queryCallC (svd_setup l cu cv)
            (List.replicate (5 * (svd_setup l cu cv : SvdSetup A R).k) 0)
            a := by
          injection htr2
        have hd2 : d2 = execCallC (svd_setup l cu cv)
            (gc (queryCallC (svd_setup l cu cv)
              (List.replicate (5 * (svd_setup l cu cv : SvdSetup A R).k) 0)
              a)) lw2 := by
          injection htr2 with _ h
          injection h
        subst hd1
        have hlw2 : lw2 = lwc := by
          rw [h2] at hlwc
          injection hlwc
        subst hlw2
        subst hd2
        refine ⟨rfl, rfl, (as_lapack_result_ok_iff _).1 h1, rfl, ?_⟩
        exact i32cast_small lw2 hsmc

/-- Witness for C5 with the demo kernels, which report optimal size 2. -/
theorem svd_workspace_protocol_witness :
    ((queryCall (svd_setup (MatrixLayout.F 1 1) true false)
        [7] : GesvdCall Int Int).work = [0] ∧
      (queryCall (svd_setup (MatrixLayout.F 1 1) true false)
        [7] : GesvdCall Int Int).lwork = -1 ∧
      (demoKernel (queryCall (svd_setup (MatrixLayout.F 1 1) true false)
        [7])).info = 0 ∧
      (execCall (svd_setup (MatrixLayout.F 1 1) true false)
        (demoKernel (queryCall (svd_setup (MatrixLayout.F 1 1) true false)
          [7])) 2).work = List.replicate 2 0 ∧
      (execCall (svd_setup (MatrixLayout.F 1 1) true false)
        (demoKernel (queryCall (svd_setup (MatrixLayout.F 1 1) true false)
          [7])) 2).lwork = 2) ∧
    ((queryCallC (svd_setup (MatrixLayout.F 1 1) true false)
        (List.replicate (5 * (svd_setup (MatrixLayout.F 1 1) true false :
          SvdSetup Int Int).k) 0) [7] : GesvdCallC Int Int).work = [0] ∧
      (queryCallC (svd_setup (MatrixLayout.F 1 1) true false)
        (List.replicate (5 * (svd_setup (MatrixLayout.F 1 1) true false :
          SvdSetup Int Int).k) 0) [7] : GesvdCallC Int Int).lwork = -1 ∧
      (demoKernelC (queryCallC (svd_setup (MatrixLayout.F 1 1) true false)
        (List.replicate (5 * (svd_setup (MatrixLayout.F 1 1) true false :
          SvdSetup Int Int).k) 0) [7])).info = 0 ∧
      (execCallC (svd_setup (MatrixLayout.F 1 1) true false)
        (demoKernelC (queryCallC (svd_setup (MatrixLayout.F 1 1) true false)
          (List.replicate (5 * (svd_setup (MatrixLayout.F 1 1) true false :
            SvdSetup Int Int).k) 0) [7])) 2).work = List.replicate 2 0 ∧
      (execCallC (svd_setup (MatrixLayout.F 1 1) true false)
        (demoKernelC (queryCallC (svd_setup (MatrixLayout.F 1 1) true false)
          (List.replicate (5 * (svd_setup (MatrixLayout.F 1 1) true false :
            SvdSetup Int Int).k) 0) [7])) 2).lwork = 2) :=
  svd_workspace_protocol demoKernel demoKernelC int_to_usize
    (MatrixLayout.F 1 1) true false [7] 2 2 _ _ _ _ (by decide) (by decide)
    (by decide) (by decide) (by decide) (by decide)

/-- C7: on the complex path, the real scratch array rwork of length exactly
5 times min m n is allocated (zeroed) before the workspace query; the
execution invocation receives exactly the array the query invocation left
(not reallocated or resized, while the complex scratch buffer is replaced by
a fresh one), so the same array is passed to both invocations. -/
theorem svd_complex_rwork_protocol {A R : Type} [Zero A] [Zero R]
    (gc : GesvdCallC A R → GesvdOutC A R) (tu : A → Option Nat)
    (l : MatrixLayout) (cu cv : Bool) (a : List A) :
    (∃ d rest, (svd_complex gc tu l cu cv a).1 = d :: rest ∧
      d.rwork = List.replicate (5 * min l.lda l.len) 0) ∧
    (∀ d1 d2, (svd_complex gc tu l cu cv a).1 = [d1, d2] →
      d2.rwork = (gc d1).rwork ∧
      ((gc d1).rwork.length = d1.rwork.length →
        d2.rwork.length = 5 * min l.lda l.len)) := by
  constructor
  · rcases svd_complex_trace_shape gc tu l cu cv a with h | ⟨lw, _, h⟩
    · refine ⟨_, _, h, ?_⟩
      simp [queryCallC, svd_setup_k]
    · refine ⟨_, _, h, ?_⟩
      simp [queryCallC, svd_setup_k]
  · intro d1 d2 htr
    rcases svd_complex_trace_shape gc tu l cu cv a with h | ⟨lw, _, h⟩
    · rw [htr] at h
      simp at h
    · rw [htr] at h
      have hd1 : d1 = queryCallC (svd_setup l cu cv)
          (List.replicate (5 * (svd_setup l cu cv : SvdSetup A R).k) 0)
          a := by
        injection h
      have hd2 : d2 = execCallC (svd_setup l cu cv)
          (gc (queryCallC (svd_setup l cu cv)
            (List.replicate (5 * (svd_setup l cu cv : SvdSetup A R).k) 0)
            a)) lw := by
        injection h with _ h2
        injection h2
      subst hd1
      subst hd2
      refine ⟨rfl, ?_⟩
      intro hlen
      have : (execCallC (svd_setup l cu cv)
          (gc (queryCallC (svd_setup l cu cv)
            (List.replicate (5 * (svd_setup l cu cv : SvdSetup A R).k) 0)
            a)) lw).rwork = (gc (queryCallC (svd_setup l cu cv)
            (List.replicate (5 * (svd_setup l cu cv : SvdSetup A R).k) 0)
            a)).rwork := rfl
      rw [this, hlen]
      simp [queryCallC, svd_setup_k]

/-- Witness for C7 at a concrete complex call. -/
theorem svd_complex_rwork_protocol_witness :
    (∃ d rest, (svd_complex demoKernelC int_to_usize (MatrixLayout.F 1 1)
        true false [7]).1 = d :: rest ∧
      d.rwork = List.replicate (5 * min (MatrixLayout.F 1 1).lda
        (MatrixLayout.F 1 1).len) 0) ∧
    (∀ d1 d2, (svd_complex demoKernelC int_to_usize (MatrixLayout.F 1 1)
        true false [7]).1 = [d1, d2] →
      d2.rwork = (demoKernelC d1).rwork ∧
      ((demoKernelC d1).rwork.length = d1.rwork.length →
        d2.rwork.length = 5 * min (MatrixLayout.F 1 1).lda
          (MatrixLayout.F 1 1).len)) :=
  svd_complex_rwork_protocol demoKernelC int_to_usize (MatrixLayout.F 1 1)
    true false [7]

/-- C6: the statuses of the query and execution invocations are checked
independently; a query failure aborts the call after one invocation,
returning the translated error and no output (so before any execution and
before any output swap); an execution failure returns the translated error
and no output after the two invocations; and svd returns Ok exactly when
both invocations report status code zero. -/
theorem svd_status_checks {A R : Type} [Zero A] [Zero R]
    (gr : GesvdCall A R → GesvdOut A R) (gc : GesvdCallC A R → GesvdOutC A R)
    (tu : A → Option Nat) (l : MatrixLayout) (cu cv : Bool) (a : List A) :
    (∀ e, as_lapack_result ((gr (queryCall (svd_setup l cu cv) a)).info) =
        Except.error e →
      svd_real gr tu l cu cv a =
        ([queryCall (svd_setup l cu cv) a], SvdResult.err e)) ∧
    (∀ lw e, as_lapack_result
          ((gr (queryCall (svd_setup l cu cv) a)).info) = Except.ok () →
      tu ((gr (queryCall (svd_setup l cu cv) a)).work.headD 0) = some lw →
      as_lapack_result ((gr (execCall (svd_setup l cu cv)
        (gr (queryCall (svd_setup l cu cv) a)) lw)).info) = Except.error e →
      svd_real gr tu l cu cv a =
        ([queryCall (svd_setup l cu cv) a,
          execCall (svd_setup l cu cv)
            (gr (queryCall (svd_setup l cu cv) a)) lw], SvdResult.err e)) ∧
    ((∃ out, (svd_real gr tu l cu cv a).2 = SvdResult.ok out) ↔
      ((gr (queryCall (svd_setup l cu cv) a)).info = 0 ∧
        ∃ lw, tu ((gr (queryCall (svd_setup l cu cv) a)).work.headD 0) =
            some lw ∧
          (gr (execCall (svd_setup l cu cv)
            (gr (queryCall (svd_setup l cu cv) a)) lw)).info = 0)) ∧
    (∀ e, as_lapack_result ((gc (queryCallC (svd_setup l cu cv)
        (List.replicate (5 * (svd_setup l cu cv : SvdSetup A R).k) 0)
        a)).info) = Except.error e →
      svd_complex gc tu l cu cv a =
        ([queryCallC (svd_setup l cu cv)
          (List.replicate (5 * (svd_setup l cu cv : SvdSetup A R).k) 0) a],
          SvdResult.err e)) ∧
    (∀ lw e, as_lapack_result ((gc (queryCallC (svd_setup l cu cv)
        (List.replicate (5 * (svd_setup l cu cv : SvdSetup A R).k) 0)
        a)).info) = Except.ok () →
      tu ((gc (queryCallC (svd_setup l cu cv)
        (List.replicate (5 * (svd_setup l cu cv : SvdSetup A R).k) 0)
        a)).work.headD 0) = some lw →
      as_lapack_result ((gc (execCallC (svd_setup l cu cv)
        (gc (queryCallC (svd_setup l cu cv)
          (List.replicate (5 * (svd_setup l cu cv : SvdSetup A R).k) 0) a))
        lw)).info) = Except.error e →
      svd_complex gc tu l cu cv a =
        ([queryCallC (svd_setup l cu cv)
          (List.replicate (5 * (svd_setup l cu cv : SvdSetup A R).k) 0) a,
          execCallC (svd_setup l cu cv)
            (gc (queryCallC (svd_setup l cu cv)
              (List.replicate (5 * (svd_setup l cu cv : SvdSetup A R).k) 0)
              a)) lw], SvdResult.err e)) ∧
    ((∃ out, (svd_complex gc tu l cu cv a).2 = SvdResult.ok out) ↔
      ((gc (queryCallC (svd_setup l cu cv)
        (List.replicate (5 * (svd_setup l cu cv : SvdSetup A R).k) 0)
        a)).info = 0 ∧
        ∃ lw, tu ((gc (queryCallC (svd_setup l cu cv)
            (List.replicate (5 * (svd_setup l cu cv : SvdSetup A R).k) 0)
            a)).work.headD 0) = some lw ∧
          (gc (execCallC (svd_setup l cu cv)
            (gc (queryCallC (svd_setup l cu cv)
              (List.replicate (5 * (svd_setup l cu cv : SvdSetup A R).k) 0)
              a)) lw)).info = 0)) := by
  refine ⟨?_, ?_, ⟨?_, ?_⟩, ?_, ?_, ⟨?_, ?_⟩⟩
  · intro e h
    exact svd_real_query_fail gr tu l cu cv a e h
  · intro lw e h1 h2 h3
    exact svd_real_exec_fail gr tu l cu cv a lw e h1 h2 h3
  · rintro ⟨out, hok⟩
    obtain ⟨lw, hlw, h1, h3, -, -⟩ := svd_real_ok_elim gr tu l cu cv a out hok
    exact ⟨(as_lapack_result_ok_iff _).1 h1, lw, hlw,
      (as_lapack_result_ok_iff _).1 h3⟩
  · rintro ⟨h1, lw, hlw, h3⟩
    exact ⟨_, by
      rw [svd_real_success gr tu l cu cv a lw
        ((as_lapack_result_ok_iff _).2 h1) hlw
        ((as_lapack_result_ok_iff _).2 h3)]⟩
  · intro e h
    exact svd_complex_query_fail gc tu l cu cv a e h
  · intro lw e h1 h2 h3
    exact svd_complex_exec_fail gc tu l cu cv a lw e h1 h2 h3
  · rintro ⟨out, hok⟩
    obtain ⟨lw, hlw, h1, h3, -, -⟩ :=
      svd_complex_ok_elim gc tu l cu cv a out hok
    exact ⟨(as_lapack_result_ok_iff _).1 h1, lw, hlw,
      (as_lapack_result_ok_iff _).1 h3⟩
  · rintro ⟨h1, lw, hlw, h3⟩
    exact ⟨_, by
      rw [svd_complex_success gc tu l cu cv a lw
        ((as_lapack_result_ok_iff _).2 h1) hlw
        ((as_lapack_result_ok_iff _).2 h3)]⟩

/-- Witness for C6: a query failure aborts with the translated error after
one invocation, and the well-behaved kernel produces an Ok output. -/
theorem svd_status_checks_witness :
    (svd_real failKernel int_to_usize (MatrixLayout.F 1 1) true false [7] =
      ([queryCall (svd_setup (MatrixLayout.F 1 1) true false) [7]],
        SvdResult.err (Error.InvalidArgument 1))) ∧
    ∃ out, (svd_real demoKernel int_to_usize (MatrixLayout.F 1 1) true false
      [7]).2 = SvdResult.ok out :=
  ⟨(svd_status_checks failKernel demoKernelC int_to_usize
      (MatrixLayout.F 1 1) true false [7]).1 (Error.InvalidArgument 1)
      (by rfl),
    ((svd_status_checks demoKernel demoKernelC int_to_usize
      (MatrixLayout.F 1 1) true false [7]).2.2.1).mpr
      ⟨by decide, 2, by decide, by decide⟩⟩

/-- C9: for every successful call to svd, under the kernel contract that a
zero-status invocation leaves the singular-value buffer sorted descending
with nonnegative entries, the returned singular-value list is sorted
descending and every element is nonnegative (the driver returns the kernel
values unchanged, unaffected by the output swap). -/
theorem svd_singular_values_order {A R : Type} [Zero A] [Zero R] [LE R]
    (gr : GesvdCall A R → GesvdOut A R) (gc : GesvdCallC A R → GesvdOutC A R)
    (tu : A → Option Nat) (l : MatrixLayout) (cu cv : Bool) (a : List A)
    (out outc : SVDOutput A R)
    (hker : ∀ c, (gr c).info = 0 →
      sorted_desc ((gr c).s) ∧ ∀ x ∈ (gr c).s, 0 ≤ x)
    (hkerC : ∀ d, (gc d).info = 0 →
      sorted_desc ((gc d).s) ∧ ∀ x ∈ (gc d).s, 0 ≤ x)
    (hok : (svd_real gr tu l cu cv a).2 = SvdResult.ok out)
    (hokC : (svd_complex gc tu l cu cv a).2 = SvdResult.ok outc) :
    (sorted_desc out.s ∧ ∀ x ∈ out.s, 0 ≤ x) ∧
      (sorted_desc outc.s ∧ ∀ x ∈ outc.s, 0 ≤ x) := by
  obtain ⟨lw, -, -, h3, -, hout⟩ := svd_real_ok_elim gr tu l cu cv a out hok
  obtain ⟨lwc, -, -, h3c, -, houtc⟩ :=
    svd_complex_ok_elim gc tu l cu cv a outc hokC
  constructor
  · rw [hout, svdPost_s]
    exact hker _ ((as_lapack_result_ok_iff _).1 h3)
  · rw [houtc, svdPost_s]
    exact hkerC _ ((as_lapack_result_ok_iff _).1 h3c)

/-- Witness for C9 with the demo kernels, whose singular-value output is the
empty list. -/
theorem svd_singular_values_order_witness :
    (sorted_desc ({ s := [], u := some [0], vt := none } :
        SVDOutput Int Int).s ∧
      ∀ x ∈ ({ s := [], u := some [0], vt := none } :
        SVDOutput Int Int).s, (0 : Int) ≤ x) ∧
    (sorted_desc ({ s := [], u := some [0], vt := none } :
        SVDOutput Int Int).s ∧
      ∀ x ∈ ({ s := [], u := some [0], vt := none } :
        SVDOutput Int Int).s, (0 : Int) ≤ x) :=
  svd_singular_values_order demoKernel demoKernelC int_to_usize
    (MatrixLayout.F 1 1) true false [7]
    { s := [], u := some [0], vt := none }
    { s := [], u := some [0], vt := none }
    (fun c _ => ⟨List.Pairwise.nil, by simp [demoKernel]⟩)
    (fun d _ => ⟨List.Pairwise.nil, by simp [demoKernelC]⟩)
    (by decide) (by decide)

end Lax
